import Mathlib

/-!
Verification of the range-addressing function and request-descriptor
builders of the `ExcelClient` class in `msgraph.py`.

The embedding models Python values with the inductive type `PyVal`
(`None`, `str`, `bool`, numbers, `list`), Python exceptions with
`PyError` (`TypeError`, `ValueError`, `IndexError`, each carrying the
message string used by the source), and the returned
`[endpoint, verb, body]` triples with the structure `Descriptor`,
where a `body` of `none` models Python's `None` and a body dictionary
is modelled as the association list of its entries in the order the
source writes them.

`npShape` models `numpy.shape` on (possibly ragged, possibly nested)
Python lists: the shape of a nested list is its length followed by the
longest rectangular profile shared by all of its elements; a scalar has
the empty shape.  The validation loops of `update_range` iterate over
dict literals; they are embedded as folds over the association list of
those dicts' entries in source order.  The `del` cleanup loop over
`request_body.items()` (which in the source's Python 2 iterates over a
snapshot list of items) is embedded as filtering out the entries whose
value is `None`.
-/

namespace MSGraph

/-- A Python value as used by the client: `None`, a string, a boolean,
a number, or a (possibly nested, possibly ragged) list. -/
inductive PyVal where
  | vNone
  | vStr (s : String)
  | vBool (b : Bool)
  | vInt (n : Int)
  | vList (xs : List PyVal)

mutual

def PyVal.eqb : PyVal → PyVal → Bool
  | .vNone, .vNone => true
  | .vStr a, .vStr b => a == b
  | .vBool a, .vBool b => a == b
  | .vInt a, .vInt b => a == b
  | .vList a, .vList b => PyVal.eqbList a b
  | _, _ => false

def PyVal.eqbList : List PyVal → List PyVal → Bool
  | [], [] => true
  | a :: as, b :: bs => PyVal.eqb a b && PyVal.eqbList as bs
  | _, _ => false

end

mutual

theorem PyVal.eqb_iff : ∀ a b : PyVal, PyVal.eqb a b = true ↔ a = b
  | .vNone, .vNone => by simp [PyVal.eqb]
  | .vNone, .vStr _ => by simp [PyVal.eqb]
  | .vNone, .vBool _ => by simp [PyVal.eqb]
  | .vNone, .vInt _ => by simp [PyVal.eqb]
  | .vNone, .vList _ => by simp [PyVal.eqb]
  | .vStr _, .vNone => by simp [PyVal.eqb]
  | .vStr a, .vStr b => by simp [PyVal.eqb]
  | .vStr _, .vBool _ => by simp [PyVal.eqb]
  | .vStr _, .vInt _ => by simp [PyVal.eqb]
  | .vStr _, .vList _ => by simp [PyVal.eqb]
  | .vBool _, .vNone => by simp [PyVal.eqb]
  | .vBool _, .vStr _ => by simp [PyVal.eqb]
  | .vBool a, .vBool b => by simp [PyVal.eqb]
  | .vBool _, .vInt _ => by simp [PyVal.eqb]
  | .vBool _, .vList _ => by simp [PyVal.eqb]
  | .vInt _, .vNone => by simp [PyVal.eqb]
  | .vInt _, .vStr _ => by simp [PyVal.eqb]
  | .vInt a, .vInt b => by simp [PyVal.eqb]
  | .vInt _, .vBool _ => by simp [PyVal.eqb]
  | .vInt _, .vList _ => by simp [PyVal.eqb]
  | .vList _, .vNone => by simp [PyVal.eqb]
  | .vList _, .vStr _ => by simp [PyVal.eqb]
  | .vList _, .vBool _ => by simp [PyVal.eqb]
  | .vList _, .vInt _ => by simp [PyVal.eqb]
  | .vList a, .vList b => by
      simp only [PyVal.eqb, PyVal.vList.injEq]
      exact PyVal.eqbList_iff a b

theorem PyVal.eqbList_iff : ∀ a b : List PyVal, PyVal.eqbList a b = true ↔ a = b
  | [], [] => by simp [PyVal.eqbList]
  | [], _ :: _ => by simp [PyVal.eqbList]
  | _ :: _, [] => by simp [PyVal.eqbList]
  | a :: as, b :: bs => by
      simp only [PyVal.eqbList, Bool.and_eq_true, List.cons.injEq]
      exact and_congr (PyVal.eqb_iff a b) (PyVal.eqbList_iff as bs)

end

instance : DecidableEq PyVal := fun a b =>
  decidable_of_iff (PyVal.eqb a b = true) (PyVal.eqb_iff a b)

/-- Python's `v is None`. -/
def PyVal.isNone : PyVal → Bool
  | .vNone => true
  | _ => false

/-- Python's `type(v) is str`. -/
def PyVal.isStr : PyVal → Bool
  | .vStr _ => true
  | _ => false

/-- Python's `type(v) is bool`. -/
def PyVal.isBool : PyVal → Bool
  | .vBool _ => true
  | _ => false

/-- Python's `type(v) is list`. -/
def PyVal.isList : PyVal → Bool
  | .vList _ => true
  | _ => false

/-- The underlying string of a value already checked to be a `str`. -/
def PyVal.asStr : PyVal → String
  | .vStr s => s
  | _ => ""

/-- A Python exception as raised by the client, with its message. -/
inductive PyError where
  | typeError (msg : String)
  | valueError (msg : String)
  | indexError (msg : String)
deriving DecidableEq

/-- The `[endpoint, verb, body]` triple each builder returns.  A body of
`none` is Python's `None`; a body dictionary is the association list of
its entries. -/
structure Descriptor where
  endpoint : String
  verb : String
  body : Option (List (String × PyVal))
deriving DecidableEq

instance {ε α : Type} [DecidableEq ε] [DecidableEq α] : DecidableEq (Except ε α) := fun a b =>
  match a, b with
  | .ok x, .ok y =>
    if h : x = y then isTrue (by rw [h]) else isFalse (fun hc => h (Except.ok.inj hc))
  | .error x, .error y =>
    if h : x = y then isTrue (by rw [h]) else isFalse (fun hc => h (Except.error.inj hc))
  | .ok _, .error _ => isFalse (fun hc => Except.noConfusion hc)
  | .error _, .ok _ => isFalse (fun hc => Except.noConfusion hc)

/-- Longest common prefix of two dimension lists. -/
def lcp : List Nat → List Nat → List Nat
  | a :: as, b :: bs => if a = b then a :: lcp as bs else []
  | _, _ => []

/-- Longest dimension list shared by all of the given shapes (the empty
shape for an empty family). -/
def shapesLcp : List (List Nat) → List Nat
  | [] => []
  | s :: rest => rest.foldl lcp s

mutual

/-- `numpy.shape` on a Python value: a scalar has shape `[]`; a list's
shape is its length followed by the longest rectangular profile shared
by all of its elements (so a ragged list of lists has a length-one
shape, and `numpy.shape(x)[1]` raises `IndexError` on it). -/
def npShape : PyVal → List Nat
  | .vList xs => xs.length :: shapesLcp (npShapes xs)
  | _ => []

def npShapes : List PyVal → List (List Nat)
  | [] => []
  | x :: xs => npShape x :: npShapes xs

end

/-- A single-quote character, as written by the source inside the
`range(address='…')` path segment. -/
def squote : String := (Char.ofNat 39).toString

/-- The path prefix shared by all six builders:
`/me/drive/items/{file_id}/workbook/worksheets/{sheetname}/range(address='{range}')`. -/
def basePath (file_id sheetname range : String) : String :=
  "/me/drive/items/" ++ file_id ++ "/workbook/worksheets/" ++ sheetname ++
    "/range(address=" ++ squote ++ range ++ squote ++ ")"

/-- The loop `for [k, v] in {...}.items(): if type(v) is not str: raise
TypeError("Invalid {k} type")`, over the dict entries in source order. -/
def checkStrs : List (String × PyVal) → Except PyError Unit
  | [] => .ok ()
  | (k, v) :: rest =>
    if v.isStr then checkStrs rest
    else .error (.typeError ("Invalid " ++ k ++ " type"))

/-- The `update_range` loop over `{"data": .., "format": .., "formulas": ..,
"formulasLocal": .., "formulasR1C1": ..}`: a provided (non-`None`) entry
must be a `list` (else `TypeError`) whose `numpy.shape` equals `size`
(else `ValueError`). -/
def checkListShape (size : List Nat) : List (String × PyVal) → Except PyError Unit
  | [] => .ok ()
  | (k, v) :: rest =>
    if v.isNone then checkListShape size rest
    else if v.isList then
      if npShape v = size then checkListShape size rest
      else .error (.valueError (k ++ " shape and data shape must be the same"))
    else .error (.typeError ("Invalid " ++ k ++ " type"))

/-- The `update_range` loop over `{"columnHidden": .., "rowHidden": ..}`:
a provided (non-`None`) entry must be a `bool`. -/
def checkBools : List (String × PyVal) → Except PyError Unit
  | [] => .ok ()
  | (k, v) :: rest =>
    if v.isNone then checkBools rest
    else if v.isBool then checkBools rest
    else .error (.typeError ("Invalid " ++ k ++ " type"))

/-- `ExcelClient.update_range` (msgraph.py lines 48-113).  Optional
arguments default to `None` as in the Python signature; the final body
is the `request_body` dict in source order with the `None`-valued
entries deleted. -/
def update_range (file_id sheetname range data : PyVal)
    (format : PyVal := .vNone) (columnHidden : PyVal := .vNone)
    (formulas : PyVal := .vNone) (formulasLocal : PyVal := .vNone)
    (formulasR1C1 : PyVal := .vNone) (rowHidden : PyVal := .vNone) :
    Except PyError Descriptor :=
  match checkStrs [("file_id", file_id), ("sheetname", sheetname), ("range", range)] with
  | .error e => .error e
  | .ok _ =>
    if data.isNone then .error (.valueError "Invalid data")
    else
      let size := npShape data
      match checkListShape size
          [("data", data), ("format", format), ("formulas", formulas),
           ("formulasLocal", formulasLocal), ("formulasR1C1", formulasR1C1)] with
      | .error e => .error e
      | .ok _ =>
        match checkBools [("columnHidden", columnHidden), ("rowHidden", rowHidden)] with
        | .error e => .error e
        | .ok _ =>
          let request_body :=
            [("values", data), ("numberFormat", format), ("columnHidden", columnHidden),
             ("formulas", formulas), ("formulasLocal", formulasLocal),
             ("formulasR1C1", formulasR1C1), ("rowHidden", rowHidden)]
          .ok ⟨basePath file_id.asStr sheetname.asStr range.asStr, "patch",
               some (request_body.filter (fun kv => !kv.2.isNone))⟩

/-- `ExcelClient.get_range` (msgraph.py lines 115-133). -/
def get_range (file_id sheetname range : PyVal) : Except PyError Descriptor :=
  match checkStrs [("file_id", file_id), ("sheetname", sheetname), ("range", range)] with
  | .error e => .error e
  | .ok _ =>
    .ok ⟨basePath file_id.asStr sheetname.asStr range.asStr, "get", none⟩

/-- `ExcelClient.insert_empty_cells` (msgraph.py lines 135-161). -/
def insert_empty_cells (file_id sheetname range : PyVal)
    (shift : PyVal := .vStr "Down") : Except PyError Descriptor :=
  match checkStrs [("file_id", file_id), ("sheetname", sheetname), ("range", range),
                   ("shift", shift)] with
  | .error e => .error e
  | .ok _ =>
    .ok ⟨basePath file_id.asStr sheetname.asStr range.asStr ++ "/insert", "post",
         some [("shift", shift)]⟩

/-- `ExcelClient.clear_range` (msgraph.py lines 163-190). -/
def clear_range (file_id sheetname range : PyVal)
    (applyTo : PyVal := .vStr "All") : Except PyError Descriptor :=
  match checkStrs [("file_id", file_id), ("sheetname", sheetname), ("range", range),
                   ("applyTo", applyTo)] with
  | .error e => .error e
  | .ok _ =>
    .ok ⟨basePath file_id.asStr sheetname.asStr range.asStr ++ "/clear", "post",
         some [("applyTo", applyTo)]⟩

/-- `ExcelClient.delete_range` (msgraph.py lines 192-218). -/
def delete_range (file_id sheetname range : PyVal)
    (shift : PyVal := .vStr "Up") : Except PyError Descriptor :=
  match checkStrs [("file_id", file_id), ("sheetname", sheetname), ("range", range),
                   ("shift", shift)] with
  | .error e => .error e
  | .ok _ =>
    .ok ⟨basePath file_id.asStr sheetname.asStr range.asStr ++ "/delete", "post",
         some [("shift", shift)]⟩

/-- `ExcelClient.get_rangeFormat` (msgraph.py lines 220-237). -/
def get_rangeFormat (file_id sheetname range : PyVal) : Except PyError Descriptor :=
  match checkStrs [("file_id", file_id), ("sheetname", sheetname), ("range", range)] with
  | .error e => .error e
  | .ok _ =>
    .ok ⟨basePath file_id.asStr sheetname.asStr range.asStr ++ "/format", "get", none⟩

/-- The `while col >= degree: degree *= 26; digits_num += 1` loop of
`get_range_of_data`, with `degree` starting at `26` and `digits_num` at
`1`.  The fuel argument only bounds the iteration count; `digits_num`
below passes `col` itself, which dominates the number of iterations
(iteration `t` requires `col ≥ 26 ^ t`, and `26 ^ t > t`). -/
def digitsNumGo : Nat → Nat → Nat → Nat → Nat
  | 0, _, _, dn => dn
  | fuel + 1, col, degree, dn =>
    if col ≥ degree then digitsNumGo fuel col (degree * 26) (dn + 1) else dn

/-- The number of letter digits the source emits for a column count. -/
def digits_num (col : Nat) : Nat := digitsNumGo col col 26 1

/-- The `for i in range(digits_num, 0, -1)` loop of `get_range_of_data`:
at place value `26 ^ (i - 1)` it emits `chr(64 + col // 26 ^ (i - 1))`
and subtracts the emitted digit's value from `col`. -/
def xlColGo : Nat → Nat → String → String
  | 0, _, acc => acc
  | i + 1, col, acc =>
    let n := col / 26 ^ i
    xlColGo i (col - n * 26 ^ i) (acc ++ (Char.ofNat (64 + n)).toString)

/-- The column-letter string `xl_col` computed by `get_range_of_data`. -/
def xl_col (col : Nat) : String := xlColGo (digits_num col) col ""

/-- `ExcelClient.get_range_of_data` (msgraph.py lines 253-281).
`row = np.shape(data)[0]` raises an uncaught `IndexError` on a scalar;
`col = np.shape(data)[1]` raises `IndexError` on a one-dimensional
shape, which the source catches and turns into the
"Invalid format of data" `ValueError`. -/
def get_range_of_data (data : PyVal) : Except PyError String :=
  if data.isNone then .error (.valueError "Invalid input data")
  else
    match npShape data with
    | [] => .error (.indexError "tuple index out of range")
    | [_] => .error (.valueError "Invalid format of data. Number of columns in lines differ")
    | row :: col :: _ => .ok ("A1:" ++ xl_col col ++ toString row)

/-- Modelled from the spec: the bijective base-26 encoding of a column
count, with digits A(1)..Z(26) and no zero digit, written here for
comparison with the source's `xl_col`.  The fuel argument `c` dominates
the recursion depth since `(c - 1) / 26 < c` for positive `c`. -/
def lettersSpecGo : Nat → Nat → String
  | _, 0 => ""
  | 0, _ + 1 => ""
  | fuel + 1, c + 1 => lettersSpecGo fuel (c / 26) ++ (Char.ofNat (65 + c % 26)).toString

/-- Modelled from the spec: `letters`, the bijective base-26 column
encoding with letters(1)="A", letters(26)="Z", letters(27)="AA". -/
def lettersSpec (c : Nat) : String := lettersSpecGo c c

example : lettersSpec 1 = "A" := by decide

example : lettersSpec 26 = "Z" := by decide

example : lettersSpec 27 = "AA" := by decide

example : lettersSpec 52 = "AZ" := by decide

example : lettersSpec 53 = "BA" := by decide

example : lettersSpec 702 = "ZZ" := by decide

example : lettersSpec 703 = "AAA" := by decide

example : xl_col 2 = "B" := by decide

example : xl_col 27 = "AA" := by decide

theorem npShapes_eq_map (xs : List PyVal) : npShapes xs = xs.map npShape := by
  induction xs with
  | nil => rfl
  | cons x xs ih => simp [npShapes, ih]

theorem lcp_nil_left (b : List Nat) : lcp [] b = [] := by
  cases b <;> rfl

theorem foldl_lcp_nil (l : List (List Nat)) : List.foldl lcp [] l = [] := by
  induction l with
  | nil => rfl
  | cons t l ih => rw [List.foldl_cons, lcp_nil_left, ih]

theorem foldl_lcp_head (l : List (List Nat)) :
    ∀ (a : Nat) (as : List Nat), List.foldl lcp (a :: as) l ≠ [] →
      ∀ t ∈ l, ∃ ts, t = a :: ts := by
  induction l with
  | nil =>
    intro a as _ t ht
    exact absurd ht (List.not_mem_nil t)
  | cons t l ih =>
    intro a as h u hu
    rw [List.foldl_cons] at h
    have hne : lcp (a :: as) t ≠ [] := by
      intro he
      rw [he, foldl_lcp_nil] at h
      exact h rfl
    obtain ⟨b, bs, rfl⟩ : ∃ b bs, t = b :: bs := by
      cases t with
      | nil => exact absurd rfl hne
      | cons b bs => exact ⟨b, bs, rfl⟩
    rcases eq_or_ne a b with rfl | hab
    · have hl : lcp (a :: as) (a :: bs) = a :: lcp as bs := by simp [lcp]
      rw [hl] at h
      rcases List.mem_cons.mp hu with rfl | hu'
      · exact ⟨bs, rfl⟩
      · exact ih a (lcp as bs) h u hu'
    · exact absurd (by simp [lcp, hab]) hne

/-- On a ragged list of rows, `numpy`'s shape discovery stops after the
row count: the rows do not share a common length, so the shape of the
nested list is the singleton `[number of rows]`. -/
theorem shapesLcp_ragged_nil (rows : List (List PyVal)) (r1 r2 : List PyVal)
    (h1 : r1 ∈ rows) (h2 : r2 ∈ rows) (hne : r1.length ≠ r2.length) :
    shapesLcp (npShapes (rows.map PyVal.vList)) = [] := by
  cases rows with
  | nil => cases h1
  | cons r0 rest =>
    rw [npShapes_eq_map, List.map_map]
    by_contra hne'
    have hall : ∀ u ∈ rest, u.length = r0.length := by
      intro u hu
      have hmem : (npShape ∘ PyVal.vList) u ∈ rest.map (npShape ∘ PyVal.vList) :=
        List.mem_map_of_mem _ hu
      have hhd := foldl_lcp_head (rest.map (npShape ∘ PyVal.vList)) r0.length
        (shapesLcp (npShapes r0)) (by simpa [shapesLcp, npShape] using hne') _ hmem
      obtain ⟨ts, hts⟩ := hhd
      have hc : u.length :: shapesLcp (npShapes u) = r0.length :: ts := by
        simpa [npShape] using hts
      injection hc with hc1 _
    have hlen : ∀ u ∈ r0 :: rest, u.length = r0.length := by
      intro u hu
      rcases List.mem_cons.mp hu with rfl | hu'
      · rfl
      · exact hall u hu'
    exact hne ((hlen r1 h1).trans (hlen r2 h2).symm)

/-- C2: for every ragged table (a non-null list of rows in which at
least two rows have different lengths), `get_range_of_data` does not
return a range string but raises the ShapeMismatch `ValueError`. -/
theorem get_range_of_data_ragged_shape_mismatch
    (rows : List (List PyVal)) (r1 r2 : List PyVal)
    (h1 : r1 ∈ rows) (h2 : r2 ∈ rows) (hne : r1.length ≠ r2.length) :
    get_range_of_data (.vList (rows.map PyVal.vList)) =
      .error (.valueError "Invalid format of data. Number of columns in lines differ") := by
  have hs := shapesLcp_ragged_nil rows r1 r2 h1 h2 hne
  have hshape : npShape (.vList (rows.map PyVal.vList)) = [(rows.map PyVal.vList).length] := by
    rw [npShape, hs]
  simp [get_range_of_data, PyVal.isNone, hshape]

theorem get_range_of_data_ragged_shape_mismatch_witness :
    get_range_of_data (.vList [.vList [.vStr "a", .vStr "b"], .vList [.vStr "c"]]) =
      .error (.valueError "Invalid format of data. Number of columns in lines differ") :=
  get_range_of_data_ragged_shape_mismatch [[.vStr "a", .vStr "b"], [.vStr "c"]]
    [.vStr "a", .vStr "b"] [.vStr "c"] (by decide) (by decide) (by decide)

/-- C10: for the empty table (a list with zero rows),
`get_range_of_data` does not return a RangeAddress: `numpy.shape([])`
is `(0,)`, so the column lookup fails exactly as for a ragged table and
the empty input is reported with the same ragged-table/ShapeMismatch
`ValueError` rather than a distinct emptiness error. -/
theorem get_range_of_data_empty_table_shape_mismatch :
    get_range_of_data (.vList []) =
      .error (.valueError "Invalid format of data. Number of columns in lines differ") ∧
    get_range_of_data (.vList []) =
      get_range_of_data (.vList [.vList [.vStr "a"], .vList []]) := by
  constructor <;> rfl

/-- C1 (code bug): the claim states `get_range_of_data` returns
`"A1:" ++ letters(C) ++ str(R)` with `letters` the bijective base-26
encoding, but the source computes each digit as `col // 26 ** (i - 1)`
after choosing `digits_num` as the smallest `d` with `col < 26 ** d`,
which emits `chr(64)` (the character "@", not a letter) whenever a
bijective digit would be Z: a 1-row table with 26 columns yields
"A1:A@1" instead of the claimed "A1:Z1".  The end-to-end 3x2 example
"A1:B3" from the spec does hold. -/
theorem letters_code_deviates_from_bijective_base26 :
    get_range_of_data (.vList [.vList (List.replicate 26 (.vStr "x"))]) =
      .ok "A1:A@1" ∧
    lettersSpec 26 = "Z" ∧
    "A1:A@1" ≠ "A1:" ++ lettersSpec 26 ++ "1" ∧
    get_range_of_data (.vList [.vList [.vStr "a", .vStr "b"], .vList [.vStr "c", .vStr "d"],
      .vList [.vStr "e", .vStr "f"]]) = .ok "A1:B3" := by
  refine ⟨?_, ?_, ?_, ?_⟩ <;> decide

theorem PyVal.isNone_false_iff (v : PyVal) : v.isNone = false ↔ v ≠ PyVal.vNone := by
  cases v <;> simp [PyVal.isNone]

theorem PyVal.not_isNone_true_iff (v : PyVal) : (!v.isNone) = true ↔ v ≠ PyVal.vNone := by
  cases v <;> simp [PyVal.isNone]

theorem PyVal.isNone_false_of_isList (v : PyVal) (h : v.isList = true) : v.isNone = false := by
  cases v <;> simp_all [PyVal.isNone, PyVal.isList]

theorem checkStrs_ok (args : List (String × PyVal))
    (h : ∀ kv ∈ args, kv.2.isStr = true) : checkStrs args = .ok () := by
  induction args with
  | nil => rfl
  | cons kv rest ih =>
    obtain ⟨k, v⟩ := kv
    have hv : v.isStr = true := h (k, v) (List.mem_cons_self _ _)
    simp only [checkStrs, hv, if_true]
    exact ih fun kv hkv => h kv (List.mem_cons_of_mem _ hkv)

theorem checkStrs_error (args : List (String × PyVal))
    (h : ∃ kv ∈ args, kv.2.isStr = false) :
    ∃ k, checkStrs args = .error (.typeError ("Invalid " ++ k ++ " type")) := by
  induction args with
  | nil =>
    obtain ⟨kv, hkv, _⟩ := h
    exact absurd hkv (List.not_mem_nil kv)
  | cons kv rest ih =>
    obtain ⟨k, v⟩ := kv
    cases hv : v.isStr with
    | true =>
      simp only [checkStrs, hv, if_true]
      apply ih
      obtain ⟨kv', hkv', hstr⟩ := h
      rcases List.mem_cons.mp hkv' with rfl | hmem
      · rw [hv] at hstr
        cases hstr
      · exact ⟨kv', hmem, hstr⟩
    | false =>
      exact ⟨k, by simp [checkStrs, hv]⟩

theorem checkListShape_ok (size : List Nat) (args : List (String × PyVal))
    (h : ∀ kv ∈ args, kv.2.isNone = true ∨ (kv.2.isList = true ∧ npShape kv.2 = size)) :
    checkListShape size args = .ok () := by
  induction args with
  | nil => rfl
  | cons kv rest ih =>
    obtain ⟨k, v⟩ := kv
    have hrest := ih fun kv hkv => h kv (List.mem_cons_of_mem _ hkv)
    rcases h (k, v) (List.mem_cons_self _ _) with hn | ⟨hl, hs⟩
    · simp only [checkListShape, hn, if_true]
      exact hrest
    · have hnn : v.isNone = false := PyVal.isNone_false_of_isList v hl
      simp only [checkListShape, hnn, hl, hs, if_true, if_neg]
      simp only [Bool.false_eq_true, if_false, if_true, hs, ite_self]
      simp [hs, hrest]

theorem checkListShape_error (size : List Nat) (args : List (String × PyVal))
    (hall : ∀ kv ∈ args, kv.2.isNone = true ∨ kv.2.isList = true)
    (hbad : ∃ kv ∈ args, kv.2.isNone = false ∧ npShape kv.2 ≠ size) :
    ∃ k, checkListShape size args =
      .error (.valueError (k ++ " shape and data shape must be the same")) := by
  induction args with
  | nil =>
    obtain ⟨kv, hkv, _⟩ := hbad
    exact absurd hkv (List.not_mem_nil kv)
  | cons kv rest ih =>
    obtain ⟨k, v⟩ := kv
    have hallrest : ∀ kv ∈ rest, kv.2.isNone = true ∨ kv.2.isList = true :=
      fun kv hkv => hall kv (List.mem_cons_of_mem _ hkv)
    rcases hall (k, v) (List.mem_cons_self _ _) with hn | hl
    · simp only [checkListShape, hn, if_true]
      apply ih hallrest
      obtain ⟨kv', hkv', hb⟩ := hbad
      rcases List.mem_cons.mp hkv' with rfl | hmem
      · rw [hn] at hb
        cases hb.1
      · exact ⟨kv', hmem, hb⟩
    · have hnn : v.isNone = false := PyVal.isNone_false_of_isList v hl
      by_cases hs : npShape v = size
      · have : checkListShape size ((k, v) :: rest) = checkListShape size rest := by
          simp [checkListShape, hnn, hl, hs]
        rw [this]
        apply ih hallrest
        obtain ⟨kv', hkv', hb⟩ := hbad
        rcases List.mem_cons.mp hkv' with rfl | hmem
        · exact absurd hs hb.2
        · exact ⟨kv', hmem, hb⟩
      · exact ⟨k, by simp [checkListShape, hnn, hl, hs]⟩

theorem checkBools_ok (args : List (String × PyVal))
    (h : ∀ kv ∈ args, kv.2.isNone = true ∨ kv.2.isBool = true) :
    checkBools args = .ok () := by
  induction args with
  | nil => rfl
  | cons kv rest ih =>
    obtain ⟨k, v⟩ := kv
    have hrest := ih fun kv hkv => h kv (List.mem_cons_of_mem _ hkv)
    rcases h (k, v) (List.mem_cons_self _ _) with hn | hb
    · simp only [checkBools, hn, if_true]
      exact hrest
    · simp [checkBools, hb, hrest]

theorem checkBools_error (args : List (String × PyVal))
    (hbad : ∃ kv ∈ args, kv.2.isNone = false ∧ kv.2.isBool = false) :
    ∃ k, checkBools args = .error (.typeError ("Invalid " ++ k ++ " type")) := by
  induction args with
  | nil =>
    obtain ⟨kv, hkv, _⟩ := hbad
    exact absurd hkv (List.not_mem_nil kv)
  | cons kv rest ih =>
    obtain ⟨k, v⟩ := kv
    by_cases hn : v.isNone = true
    · simp only [checkBools, hn, if_true]
      apply ih
      obtain ⟨kv', hkv', hb⟩ := hbad
      rcases List.mem_cons.mp hkv' with rfl | hmem
      · rw [hn] at hb
        cases hb.1
      · exact ⟨kv', hmem, hb⟩
    · by_cases hb : v.isBool = true
      · have : checkBools ((k, v) :: rest) = checkBools rest := by
          simp [checkBools, hb]
        rw [this]
        apply ih
        obtain ⟨kv', hkv', hbb⟩ := hbad
        rcases List.mem_cons.mp hkv' with rfl | hmem
        · rw [hb] at hbb
          cases hbb.2
        · exact ⟨kv', hmem, hbb⟩
      · refine ⟨k, ?_⟩
        simp only [Bool.not_eq_true] at hn hb
        simp [checkBools, hn, hb]

/-- Success shape of `update_range`: valid required strings, non-`None`
list data, optional list fields matching `data`'s shape and optional
flags boolean yield the patch descriptor whose body is the source-order
dict with `None` entries deleted. -/
theorem update_range_ok (f s r : String)
    (data format columnHidden formulas formulasLocal formulasR1C1 rowHidden : PyVal)
    (hd : data.isList = true)
    (hfmt : format.isNone = true ∨ (format.isList = true ∧ npShape format = npShape data))
    (hfor : formulas.isNone = true ∨ (formulas.isList = true ∧ npShape formulas = npShape data))
    (hfl : formulasLocal.isNone = true ∨
      (formulasLocal.isList = true ∧ npShape formulasLocal = npShape data))
    (hfr : formulasR1C1.isNone = true ∨
      (formulasR1C1.isList = true ∧ npShape formulasR1C1 = npShape data))
    (hch : columnHidden.isNone = true ∨ columnHidden.isBool = true)
    (hrh : rowHidden.isNone = true ∨ rowHidden.isBool = true) :
    update_range (.vStr f) (.vStr s) (.vStr r) data format columnHidden formulas
        formulasLocal formulasR1C1 rowHidden =
      .ok ⟨basePath f s r, "patch",
        some (List.filter (fun kv => !kv.2.isNone)
          [("values", data), ("numberFormat", format), ("columnHidden", columnHidden),
           ("formulas", formulas), ("formulasLocal", formulasLocal),
           ("formulasR1C1", formulasR1C1), ("rowHidden", rowHidden)])⟩ := by
  have hstrs : checkStrs [("file_id", .vStr f), ("sheetname", .vStr s), ("range", .vStr r)] =
      .ok () := rfl
  have hnn : data.isNone = false := PyVal.isNone_false_of_isList data hd
  have hshape : checkListShape (npShape data)
      [("data", data), ("format", format), ("formulas", formulas),
       ("formulasLocal", formulasLocal), ("formulasR1C1", formulasR1C1)] = .ok () := by
    apply checkListShape_ok
    intro kv hkv
    simp only [List.mem_cons, List.not_mem_nil, or_false] at hkv
    rcases hkv with rfl | rfl | rfl | rfl | rfl
    · exact Or.inr ⟨hd, rfl⟩
    · exact hfmt
    · exact hfor
    · exact hfl
    · exact hfr
  have hbools : checkBools [("columnHidden", columnHidden), ("rowHidden", rowHidden)] =
      .ok () := by
    apply checkBools_ok
    intro kv hkv
    simp only [List.mem_cons, List.not_mem_nil, or_false] at hkv
    rcases hkv with rfl | rfl
    · exact hch
    · exact hrh
  simp [update_range, hstrs, hnn, hshape, hbools, PyVal.asStr]

/-- C3: for `update_range` with valid required string arguments and
non-null list data, every optional list-typed field provided with a
shape different from `data`'s shape makes the call fail with the
ShapeMismatch `ValueError` instead of returning a descriptor. -/
theorem update_range_optional_shape_mismatch (f s r : String)
    (data format columnHidden formulas formulasLocal formulasR1C1 rowHidden : PyVal)
    (hd : data.isList = true)
    (hfmt : format.isNone = true ∨ format.isList = true)
    (hfor : formulas.isNone = true ∨ formulas.isList = true)
    (hfl : formulasLocal.isNone = true ∨ formulasLocal.isList = true)
    (hfr : formulasR1C1.isNone = true ∨ formulasR1C1.isList = true)
    (hbad : (format.isNone = false ∧ npShape format ≠ npShape data) ∨
            (formulas.isNone = false ∧ npShape formulas ≠ npShape data) ∨
            (formulasLocal.isNone = false ∧ npShape formulasLocal ≠ npShape data) ∨
            (formulasR1C1.isNone = false ∧ npShape formulasR1C1 ≠ npShape data)) :
    ∃ k, update_range (.vStr f) (.vStr s) (.vStr r) data format columnHidden formulas
        formulasLocal formulasR1C1 rowHidden =
      .error (.valueError (k ++ " shape and data shape must be the same")) := by
  have hstrs : checkStrs [("file_id", .vStr f), ("sheetname", .vStr s), ("range", .vStr r)] =
      .ok () := rfl
  have hnn : data.isNone = false := PyVal.isNone_false_of_isList data hd
  obtain ⟨k, hk⟩ := checkListShape_error (npShape data)
    [("data", data), ("format", format), ("formulas", formulas),
     ("formulasLocal", formulasLocal), ("formulasR1C1", formulasR1C1)]
    (by
      intro kv hkv
      simp only [List.mem_cons, List.not_mem_nil, or_false] at hkv
      rcases hkv with rfl | rfl | rfl | rfl | rfl
      · exact Or.inr hd
      · exact hfmt
      · exact hfor
      · exact hfl
      · exact hfr)
    (by
      rcases hbad with h | h | h | h
      · exact ⟨("format", format), by simp, h⟩
      · exact ⟨("formulas", formulas), by simp, h⟩
      · exact ⟨("formulasLocal", formulasLocal), by simp, h⟩
      · exact ⟨("formulasR1C1", formulasR1C1), by simp, h⟩)
  exact ⟨k, by simp [update_range, hstrs, hnn, hk]⟩

theorem update_range_optional_shape_mismatch_witness :
    ∃ k, update_range (.vStr "f") (.vStr "s") (.vStr "r") (.vList [.vList [.vStr "a"]])
        (.vList []) .vNone .vNone .vNone .vNone .vNone =
      .error (.valueError (k ++ " shape and data shape must be the same")) :=
  update_range_optional_shape_mismatch "f" "s" "r" (.vList [.vList [.vStr "a"]])
    (.vList []) .vNone .vNone .vNone .vNone .vNone rfl (Or.inr rfl) (Or.inl rfl)
    (Or.inl rfl) (Or.inl rfl) (Or.inl ⟨rfl, by decide⟩)

/-- C4: every successful `update_range` call returns the patch
descriptor on the shared path whose body holds exactly the provided
arguments: it always maps "values" to `data`, each optional key is
present exactly when its argument was provided, unset fields are
omitted rather than kept as `None`, and with every optional argument
unset the body is exactly `[("values", data)]`. -/
theorem update_range_body_exact_keys (f s r : String)
    (data format columnHidden formulas formulasLocal formulasR1C1 rowHidden : PyVal)
    (hd : data.isList = true)
    (hfmt : format.isNone = true ∨ (format.isList = true ∧ npShape format = npShape data))
    (hfor : formulas.isNone = true ∨ (formulas.isList = true ∧ npShape formulas = npShape data))
    (hfl : formulasLocal.isNone = true ∨
      (formulasLocal.isList = true ∧ npShape formulasLocal = npShape data))
    (hfr : formulasR1C1.isNone = true ∨
      (formulasR1C1.isList = true ∧ npShape formulasR1C1 = npShape data))
    (hch : columnHidden.isNone = true ∨ columnHidden.isBool = true)
    (hrh : rowHidden.isNone = true ∨ rowHidden.isBool = true) :
    ∃ body,
      update_range (.vStr f) (.vStr s) (.vStr r) data format columnHidden formulas
          formulasLocal formulasR1C1 rowHidden = .ok ⟨basePath f s r, "patch", some body⟩ ∧
      ("values", data) ∈ body ∧
      (∀ kv ∈ body, kv.2 ≠ PyVal.vNone) ∧
      (∀ kv ∈ body, kv ∈ [("values", data), ("numberFormat", format),
        ("columnHidden", columnHidden), ("formulas", formulas), ("formulasLocal", formulasLocal),
        ("formulasR1C1", formulasR1C1), ("rowHidden", rowHidden)]) ∧
      (("numberFormat", format) ∈ body ↔ format ≠ PyVal.vNone) ∧
      (("columnHidden", columnHidden) ∈ body ↔ columnHidden ≠ PyVal.vNone) ∧
      (("formulas", formulas) ∈ body ↔ formulas ≠ PyVal.vNone) ∧
      (("formulasLocal", formulasLocal) ∈ body ↔ formulasLocal ≠ PyVal.vNone) ∧
      (("formulasR1C1", formulasR1C1) ∈ body ↔ formulasR1C1 ≠ PyVal.vNone) ∧
      (("rowHidden", rowHidden) ∈ body ↔ rowHidden ≠ PyVal.vNone) ∧
      ((format = PyVal.vNone ∧ columnHidden = PyVal.vNone ∧ formulas = PyVal.vNone ∧
        formulasLocal = PyVal.vNone ∧ formulasR1C1 = PyVal.vNone ∧ rowHidden = PyVal.vNone) →
        body = [("values", data)]) := by
  have hnn : data.isNone = false := PyVal.isNone_false_of_isList data hd
  refine ⟨List.filter (fun kv => !kv.2.isNone)
      [("values", data), ("numberFormat", format), ("columnHidden", columnHidden),
       ("formulas", formulas), ("formulasLocal", formulasLocal),
       ("formulasR1C1", formulasR1C1), ("rowHidden", rowHidden)],
    update_range_ok f s r data format columnHidden formulas formulasLocal formulasR1C1
      rowHidden hd hfmt hfor hfl hfr hch hrh, ?_, ?_, ?_, ?_, ?_, ?_, ?_, ?_, ?_, ?_⟩
  · exact List.mem_filter.mpr ⟨List.mem_cons_self _ _, by simp [hnn]⟩
  · intro kv hkv
    exact (PyVal.not_isNone_true_iff _).mp (List.mem_filter.mp hkv).2
  · intro kv hkv
    exact List.mem_of_mem_filter hkv
  · constructor
    · intro hmem
      exact (PyVal.not_isNone_true_iff _).mp (List.mem_filter.mp hmem).2
    · intro hne
      exact List.mem_filter.mpr ⟨by simp, (PyVal.not_isNone_true_iff _).mpr hne⟩
  · constructor
    · intro hmem
      exact (PyVal.not_isNone_true_iff _).mp (List.mem_filter.mp hmem).2
    · intro hne
      exact List.mem_filter.mpr ⟨by simp, (PyVal.not_isNone_true_iff _).mpr hne⟩
  · constructor
    · intro hmem
      exact (PyVal.not_isNone_true_iff _).mp (List.mem_filter.mp hmem).2
    · intro hne
      exact List.mem_filter.mpr ⟨by simp, (PyVal.not_isNone_true_iff _).mpr hne⟩
  · constructor
    · intro hmem
      exact (PyVal.not_isNone_true_iff _).mp (List.mem_filter.mp hmem).2
    · intro hne
      exact List.mem_filter.mpr ⟨by simp, (PyVal.not_isNone_true_iff _).mpr hne⟩
  · constructor
    · intro hmem
      exact (PyVal.not_isNone_true_iff _).mp (List.mem_filter.mp hmem).2
    · intro hne
      exact List.mem_filter.mpr ⟨by simp, (PyVal.not_isNone_true_iff _).mpr hne⟩
  · constructor
    · intro hmem
      exact (PyVal.not_isNone_true_iff _).mp (List.mem_filter.mp hmem).2
    · intro hne
      exact List.mem_filter.mpr ⟨by simp, (PyVal.not_isNone_true_iff _).mpr hne⟩
  · rintro ⟨rfl, rfl, rfl, rfl, rfl, rfl⟩
    have hv : PyVal.vNone.isNone = true := rfl
    simp [List.filter_cons, hnn, hv]

theorem update_range_body_exact_keys_witness :
    ∃ body,
      update_range (.vStr "f") (.vStr "s") (.vStr "r") (.vList [.vList [.vStr "a"]])
          (.vList [.vList [.vStr "0"]]) .vNone .vNone .vNone .vNone .vNone =
        .ok ⟨basePath "f" "s" "r", "patch", some body⟩ ∧
      ("values", PyVal.vList [.vList [.vStr "a"]]) ∈ body ∧
      (∀ kv ∈ body, kv.2 ≠ PyVal.vNone) ∧
      (∀ kv ∈ body, kv ∈ [("values", PyVal.vList [.vList [.vStr "a"]]),
        ("numberFormat", PyVal.vList [.vList [.vStr "0"]]), ("columnHidden", PyVal.vNone),
        ("formulas", PyVal.vNone), ("formulasLocal", PyVal.vNone),
        ("formulasR1C1", PyVal.vNone), ("rowHidden", PyVal.vNone)]) ∧
      (("numberFormat", PyVal.vList [.vList [.vStr "0"]]) ∈ body ↔
        PyVal.vList [.vList [.vStr "0"]] ≠ PyVal.vNone) ∧
      (("columnHidden", PyVal.vNone) ∈ body ↔ PyVal.vNone ≠ PyVal.vNone) ∧
      (("formulas", PyVal.vNone) ∈ body ↔ PyVal.vNone ≠ PyVal.vNone) ∧
      (("formulasLocal", PyVal.vNone) ∈ body ↔ PyVal.vNone ≠ PyVal.vNone) ∧
      (("formulasR1C1", PyVal.vNone) ∈ body ↔ PyVal.vNone ≠ PyVal.vNone) ∧
      (("rowHidden", PyVal.vNone) ∈ body ↔ PyVal.vNone ≠ PyVal.vNone) ∧
      ((PyVal.vList [.vList [.vStr "0"]] = PyVal.vNone ∧ PyVal.vNone = PyVal.vNone ∧
        PyVal.vNone = PyVal.vNone ∧ PyVal.vNone = PyVal.vNone ∧ PyVal.vNone = PyVal.vNone ∧
        PyVal.vNone = PyVal.vNone) →
        body = [("values", PyVal.vList [.vList [.vStr "a"]])]) :=
  update_range_body_exact_keys "f" "s" "r" (.vList [.vList [.vStr "a"]])
    (.vList [.vList [.vStr "0"]]) .vNone .vNone .vNone .vNone .vNone rfl
    (Or.inr ⟨rfl, rfl⟩) (Or.inl rfl) (Or.inl rfl) (Or.inl rfl) (Or.inl rfl) (Or.inl rfl)

/-- C9: `update_range` never checks that `data` itself is rectangular:
on a ragged non-null list with valid string arguments and all optional
fields unset it returns the descriptor normally (body exactly
`values ↦ data`) instead of raising ShapeMismatch, because `data`'s
shape is compared only against itself and against provided optional
fields. -/
theorem update_range_accepts_ragged_data (f s r : String)
    (rows : List (List PyVal)) (r1 r2 : List PyVal)
    (h1 : r1 ∈ rows) (h2 : r2 ∈ rows) (hne : r1.length ≠ r2.length) :
    update_range (.vStr f) (.vStr s) (.vStr r) (.vList (rows.map PyVal.vList)) =
      .ok ⟨basePath f s r, "patch",
           some [("values", .vList (rows.map PyVal.vList))]⟩ := by
  have h := update_range_ok f s r (.vList (rows.map PyVal.vList)) .vNone .vNone .vNone
    .vNone .vNone .vNone rfl (Or.inl rfl) (Or.inl rfl) (Or.inl rfl) (Or.inl rfl)
    (Or.inl rfl) (Or.inl rfl)
  simpa [List.filter, PyVal.isNone] using h

theorem update_range_accepts_ragged_data_witness :
    update_range (.vStr "f") (.vStr "s") (.vStr "r")
        (.vList [.vList [.vStr "a", .vStr "b"], .vList [.vStr "c"]]) =
      .ok ⟨basePath "f" "s" "r", "patch",
           some [("values", .vList [.vList [.vStr "a", .vStr "b"], .vList [.vStr "c"]])]⟩ :=
  update_range_accepts_ragged_data "f" "s" "r" [[.vStr "a", .vStr "b"], [.vStr "c"]]
    [.vStr "a", .vStr "b"] [.vStr "c"] (by decide) (by decide) (by decide)

/-- C6: for `update_range` with valid required string arguments,
non-null list data and valid optional list fields, a provided
`columnHidden` or `rowHidden` that is not a boolean makes the call fail
with the TypeMismatch `TypeError`. -/
theorem update_range_bool_type_mismatch (f s r : String)
    (data format columnHidden formulas formulasLocal formulasR1C1 rowHidden : PyVal)
    (hd : data.isList = true)
    (hfmt : format.isNone = true ∨ (format.isList = true ∧ npShape format = npShape data))
    (hfor : formulas.isNone = true ∨ (formulas.isList = true ∧ npShape formulas = npShape data))
    (hfl : formulasLocal.isNone = true ∨
      (formulasLocal.isList = true ∧ npShape formulasLocal = npShape data))
    (hfr : formulasR1C1.isNone = true ∨
      (formulasR1C1.isList = true ∧ npShape formulasR1C1 = npShape data))
    (hbad : (columnHidden.isNone = false ∧ columnHidden.isBool = false) ∨
            (rowHidden.isNone = false ∧ rowHidden.isBool = false)) :
    ∃ k, update_range (.vStr f) (.vStr s) (.vStr r) data format columnHidden formulas
        formulasLocal formulasR1C1 rowHidden =
      .error (.typeError ("Invalid " ++ k ++ " type")) := by
  have hstrs : checkStrs [("file_id", .vStr f), ("sheetname", .vStr s), ("range", .vStr r)] =
      .ok () := rfl
  have hnn : data.isNone = false := PyVal.isNone_false_of_isList data hd
  have hshape : checkListShape (npShape data)
      [("data", data), ("format", format), ("formulas", formulas),
       ("formulasLocal", formulasLocal), ("formulasR1C1", formulasR1C1)] = .ok () := by
    apply checkListShape_ok
    intro kv hkv
    simp only [List.mem_cons, List.not_mem_nil, or_false] at hkv
    rcases hkv with rfl | rfl | rfl | rfl | rfl
    · exact Or.inr ⟨hd, rfl⟩
    · exact hfmt
    · exact hfor
    · exact hfl
    · exact hfr
  obtain ⟨k, hk⟩ := checkBools_error
    [("columnHidden", columnHidden), ("rowHidden", rowHidden)]
    (by
      rcases hbad with h | h
      · exact ⟨("columnHidden", columnHidden), by simp, h⟩
      · exact ⟨("rowHidden", rowHidden), by simp, h⟩)
  exact ⟨k, by simp [update_range, hstrs, hnn, hshape, hk]⟩

theorem update_range_bool_type_mismatch_witness :
    ∃ k, update_range (.vStr "f") (.vStr "s") (.vStr "r") (.vList [.vList [.vStr "a"]])
        .vNone (.vInt 1) .vNone .vNone .vNone .vNone =
      .error (.typeError ("Invalid " ++ k ++ " type")) :=
  update_range_bool_type_mismatch "f" "s" "r" (.vList [.vList [.vStr "a"]]) .vNone
    (.vInt 1) .vNone .vNone .vNone .vNone rfl (Or.inl rfl) (Or.inl rfl) (Or.inl rfl)
    (Or.inl rfl) (Or.inl ⟨rfl, rfl⟩)

/-- C5: for each of the six builders, a required string-typed argument
(file id, sheet name, range, or the shift/applyTo mode string) that is
not a `str` makes the call fail with the TypeMismatch `TypeError`; and
`update_range` called with `None` data (and valid strings) fails with
the InvalidArgument `ValueError`. -/
theorem builders_required_string_type_checks :
    (∀ file_id sheetname range data format columnHidden formulas formulasLocal
        formulasR1C1 rowHidden : PyVal,
      file_id.isStr = false ∨ sheetname.isStr = false ∨ range.isStr = false →
      ∃ k, update_range file_id sheetname range data format columnHidden formulas
          formulasLocal formulasR1C1 rowHidden =
        .error (.typeError ("Invalid " ++ k ++ " type"))) ∧
    (∀ file_id sheetname range : PyVal,
      file_id.isStr = false ∨ sheetname.isStr = false ∨ range.isStr = false →
      ∃ k, get_range file_id sheetname range =
        .error (.typeError ("Invalid " ++ k ++ " type"))) ∧
    (∀ file_id sheetname range shift : PyVal,
      file_id.isStr = false ∨ sheetname.isStr = false ∨ range.isStr = false ∨
        shift.isStr = false →
      ∃ k, insert_empty_cells file_id sheetname range shift =
        .error (.typeError ("Invalid " ++ k ++ " type"))) ∧
    (∀ file_id sheetname range applyTo : PyVal,
      file_id.isStr = false ∨ sheetname.isStr = false ∨ range.isStr = false ∨
        applyTo.isStr = false →
      ∃ k, clear_range file_id sheetname range applyTo =
        .error (.typeError ("Invalid " ++ k ++ " type"))) ∧
    (∀ file_id sheetname range shift : PyVal,
      file_id.isStr = false ∨ sheetname.isStr = false ∨ range.isStr = false ∨
        shift.isStr = false →
      ∃ k, delete_range file_id sheetname range shift =
        .error (.typeError ("Invalid " ++ k ++ " type"))) ∧
    (∀ file_id sheetname range : PyVal,
      file_id.isStr = false ∨ sheetname.isStr = false ∨ range.isStr = false →
      ∃ k, get_rangeFormat file_id sheetname range =
        .error (.typeError ("Invalid " ++ k ++ " type"))) ∧
    (∀ (f s r : String) (format columnHidden formulas formulasLocal formulasR1C1
        rowHidden : PyVal),
      update_range (.vStr f) (.vStr s) (.vStr r) .vNone format columnHidden formulas
          formulasLocal formulasR1C1 rowHidden =
        .error (.valueError "Invalid data")) := by
  refine ⟨?_, ?_, ?_, ?_, ?_, ?_, ?_⟩
  · intro file_id sheetname range data format columnHidden formulas formulasLocal
      formulasR1C1 rowHidden h
    obtain ⟨k, hk⟩ := checkStrs_error
      [("file_id", file_id), ("sheetname", sheetname), ("range", range)]
      (by
        rcases h with h | h | h
        · exact ⟨("file_id", file_id), by simp, h⟩
        · exact ⟨("sheetname", sheetname), by simp, h⟩
        · exact ⟨("range", range), by simp, h⟩)
    exact ⟨k, by simp [update_range, hk]⟩
  · intro file_id sheetname range h
    obtain ⟨k, hk⟩ := checkStrs_error
      [("file_id", file_id), ("sheetname", sheetname), ("range", range)]
      (by
        rcases h with h | h | h
        · exact ⟨("file_id", file_id), by simp, h⟩
        · exact ⟨("sheetname", sheetname), by simp, h⟩
        · exact ⟨("range", range), by simp, h⟩)
    exact ⟨k, by simp [get_range, hk]⟩
  · intro file_id sheetname range shift h
    obtain ⟨k, hk⟩ := checkStrs_error
      [("file_id", file_id), ("sheetname", sheetname), ("range", range), ("shift", shift)]
      (by
        rcases h with h | h | h | h
        · exact ⟨("file_id", file_id), by simp, h⟩
        · exact ⟨("sheetname", sheetname), by simp, h⟩
        · exact ⟨("range", range), by simp, h⟩
        · exact ⟨("shift", shift), by simp, h⟩)
    exact ⟨k, by simp [insert_empty_cells, hk]⟩
  · intro file_id sheetname range applyTo h
    obtain ⟨k, hk⟩ := checkStrs_error
      [("file_id", file_id), ("sheetname", sheetname), ("range", range), ("applyTo", applyTo)]
      (by
        rcases h with h | h | h | h
        · exact ⟨("file_id", file_id), by simp, h⟩
        · exact ⟨("sheetname", sheetname), by simp, h⟩
        · exact ⟨("range", range), by simp, h⟩
        · exact ⟨("applyTo", applyTo), by simp, h⟩)
    exact ⟨k, by simp [clear_range, hk]⟩
  · intro file_id sheetname range shift h
    obtain ⟨k, hk⟩ := checkStrs_error
      [("file_id", file_id), ("sheetname", sheetname), ("range", range), ("shift", shift)]
      (by
        rcases h with h | h | h | h
        · exact ⟨("file_id", file_id), by simp, h⟩
        · exact ⟨("sheetname", sheetname), by simp, h⟩
        · exact ⟨("range", range), by simp, h⟩
        · exact ⟨("shift", shift), by simp, h⟩)
    exact ⟨k, by simp [delete_range, hk]⟩
  · intro file_id sheetname range h
    obtain ⟨k, hk⟩ := checkStrs_error
      [("file_id", file_id), ("sheetname", sheetname), ("range", range)]
      (by
        rcases h with h | h | h
        · exact ⟨("file_id", file_id), by simp, h⟩
        · exact ⟨("sheetname", sheetname), by simp, h⟩
        · exact ⟨("range", range), by simp, h⟩)
    exact ⟨k, by simp [get_rangeFormat, hk]⟩
  · intro f s r format columnHidden formulas formulasLocal formulasR1C1 rowHidden
    rfl

theorem builders_required_string_type_checks_witness :
    (∃ k, get_range (.vInt 7) (.vStr "s") (.vStr "r") =
      .error (.typeError ("Invalid " ++ k ++ " type"))) ∧
    update_range (.vStr "f") (.vStr "s") (.vStr "r") .vNone .vNone .vNone .vNone .vNone
        .vNone .vNone =
      .error (.valueError "Invalid data") :=
  ⟨builders_required_string_type_checks.2.1 (.vInt 7) (.vStr "s") (.vStr "r") (Or.inl rfl),
   builders_required_string_type_checks.2.2.2.2.2.2 "f" "s" "r" .vNone .vNone .vNone .vNone
     .vNone .vNone⟩

/-- C7: with valid string arguments, `insert_empty_cells` with default
arguments returns the post descriptor with path suffix "/insert" and
body shift ↦ "Down"; `clear_range` with no applyTo returns the post
descriptor with path suffix "/clear" and body applyTo ↦ "All"; and
`delete_range` on file "X", sheet "Sheet1", range "A1:B3" returns the
post descriptor on the instantiated shared prefix followed by "/delete"
with body shift ↦ "Up". -/
theorem insert_clear_delete_descriptors (f s r : String) :
    insert_empty_cells (.vStr f) (.vStr s) (.vStr r) =
      .ok ⟨basePath f s r ++ "/insert", "post", some [("shift", .vStr "Down")]⟩ ∧
    clear_range (.vStr f) (.vStr s) (.vStr r) =
      .ok ⟨basePath f s r ++ "/clear", "post", some [("applyTo", .vStr "All")]⟩ ∧
    delete_range (.vStr "X") (.vStr "Sheet1") (.vStr "A1:B3") =
      .ok ⟨basePath "X" "Sheet1" "A1:B3" ++ "/delete", "post", some [("shift", .vStr "Up")]⟩ :=
  ⟨rfl, rfl, rfl⟩

theorem insert_clear_delete_descriptors_witness :
    insert_empty_cells (.vStr "F") (.vStr "S") (.vStr "A1:C9") =
      .ok ⟨basePath "F" "S" "A1:C9" ++ "/insert", "post", some [("shift", .vStr "Down")]⟩ ∧
    clear_range (.vStr "F") (.vStr "S") (.vStr "A1:C9") =
      .ok ⟨basePath "F" "S" "A1:C9" ++ "/clear", "post", some [("applyTo", .vStr "All")]⟩ ∧
    delete_range (.vStr "X") (.vStr "Sheet1") (.vStr "A1:B3") =
      .ok ⟨basePath "X" "Sheet1" "A1:B3" ++ "/delete", "post", some [("shift", .vStr "Up")]⟩ :=
  insert_clear_delete_descriptors "F" "S" "A1:C9"

/-- C8: with valid string arguments, `get_range` and `get_rangeFormat`
both return a descriptor with verb "get" and a null body; `get_range`'s
path is exactly the shared prefix with no suffix, while
`get_rangeFormat` appends the suffix "/format". -/
theorem get_range_and_format_descriptors (f s r : String) :
    get_range (.vStr f) (.vStr s) (.vStr r) = .ok ⟨basePath f s r, "get", none⟩ ∧
    get_rangeFormat (.vStr f) (.vStr s) (.vStr r) =
      .ok ⟨basePath f s r ++ "/format", "get", none⟩ :=
  ⟨rfl, rfl⟩

theorem get_range_and_format_descriptors_witness :
    get_range (.vStr "F") (.vStr "S") (.vStr "A1:B2") =
      .ok ⟨basePath "F" "S" "A1:B2", "get", none⟩ ∧
    get_rangeFormat (.vStr "F") (.vStr "S") (.vStr "A1:B2") =
      .ok ⟨basePath "F" "S" "A1:B2" ++ "/format", "get", none⟩ :=
  get_range_and_format_descriptors "F" "S" "A1:B2"

end MSGraph
